import Mathlib

/-!
Shallow embedding of the Best-Buy inventory domain (products.py,
store.py, app/store.py, app/promotions.py) and verification of the
spec's claims about it.

Modelling conventions:
* Python numbers are modelled exactly: prices as `ℚ`, quantities as `ℤ`
  (the stored `_quantity` attribute can become negative, because
  `Product.buy` mutates `_quantity` directly, bypassing the validating
  property setter).
* Requested purchase quantities and the per-order maximum are `ℕ`
  (the CLI only passes positive integers).
* Python exceptions are modelled with `Except`; an error raised inside a
  promotion loop carries the product state at the moment of the raise
  (earlier iterations of the loop have already mutated the product).
* The process-wide running total `Product.total_quantity` is threaded
  explicitly where a claim needs it (construction).
-/

namespace BestBuy

/-- The three concrete promotion classes of app/promotions.py.
The display name is omitted: no verified claim depends on it. -/
inductive Promotion where
  | percentDiscount (percent : ℚ)
  | secondHalfPrice
  | thirdOneFree
  deriving DecidableEq, Repr

/-- Which class of products.py an instance belongs to:
`Product` itself, `NonStockedProduct`, or `LimitedProduct` with its
per-order `maximum`. -/
inductive ProdKind where
  | standard
  | nonStocked
  | limited (maximum : ℕ)
  deriving DecidableEq, Repr

/-- The mutable state of a product instance (products.py):
`name`, `price`, the stored `_quantity`, the `active` flag and the
optional `_promotion`. -/
structure Product where
  name : String
  kind : ProdKind
  price : ℚ
  quantity : ℤ
  active : Bool
  promotion : Option Promotion
  deriving DecidableEq, Repr

/-- The `quantity` property setter.  For `NonStockedProduct` (which
overrides the property) any value other than 0 raises; for the other
kinds `quantity_is_valid` raises on a negative value, otherwise the
value is stored and the product is deactivated when it reaches zero
(the trailing `if self._quantity < 0` raise in the Python setter is
unreachable, since `quantity_is_valid` already raised). -/
def setQuantity (p : Product) (v : ℤ) : Except String Product :=
  match p.kind with
  | .nonStocked =>
      if v ≠ 0 then .error "Non stocked products have no quantity"
      else .ok { p with quantity := 0 }
  | _ =>
      if v < 0 then .error "Quantity must be a positive integer"
      else .ok { p with quantity := v, active := if v = 0 then false else p.active }

/-- One iteration of the `SecondHalfPrice.apply_promotions` loop at unit
index `n`: add full price for an odd index, half price for an even one,
then (for stock-tracked products) deduct one unit through the setter. -/
def shpStep (n : ℕ) (acc : ℚ × Product) : Except (String × Product) (ℚ × Product) :=
  let t := if n % 2 = 0 then acc.1 + acc.2.price / 2 else acc.1 + acc.2.price
  if acc.2.kind = .nonStocked then .ok (t, acc.2)
  else
    match setQuantity acc.2 (acc.2.quantity - 1) with
    | .error e => .error (e, acc.2)
    | .ok p' => .ok (t, p')

/-- One iteration of the `ThirdOneFree.apply_promotions` loop at unit
index `n`: add full price unless the index is a multiple of 3, then
(for stock-tracked products) deduct `d` units — `d` is the loop's fixed
`quantity` argument, so the whole loop deducts `quantity * quantity`. -/
def tofStep (d : ℕ) (n : ℕ) (acc : ℚ × Product) : Except (String × Product) (ℚ × Product) :=
  let t := if n % 3 = 0 then acc.1 else acc.1 + acc.2.price
  if acc.2.kind = .nonStocked then .ok (t, acc.2)
  else
    match setQuantity acc.2 (acc.2.quantity - d) with
    | .error e => .error (e, acc.2)
    | .ok p' => .ok (t, p')

/-- Run a promotion loop body over the listed unit indices, stopping at
the first raised exception. -/
def promoIter (step : ℕ → (ℚ × Product) → Except (String × Product) (ℚ × Product)) :
    List ℕ → (ℚ × Product) → Except (String × Product) (ℚ × Product)
  | [], acc => .ok acc
  | n :: ns, acc =>
    match step n acc with
    | .error e => .error e
    | .ok acc' => promoIter step ns acc'

/-- `apply_promotions` of each promotion class (app/promotions.py).
`PercentDiscount` deducts the whole quantity through the setter once;
the two loop promotions iterate over unit indices `1..quantity`. -/
def applyPromotions : Promotion → Product → ℕ → Except (String × Product) (ℚ × Product)
  | .percentDiscount pct, p, q =>
      let discounted := p.price * (1 - pct / 100)
      if p.kind = .nonStocked then .ok (discounted * q, p)
      else
        match setQuantity p (p.quantity - q) with
        | .error e => .error (e, p)
        | .ok p' => .ok (discounted * q, p')
  | .secondHalfPrice, p, q => promoIter shpStep (List.range' 1 q) (0, p)
  | .thirdOneFree, p, q => promoIter (tofStep q) (List.range' 1 q) (0, p)

/-- `buy` as dispatched by the class hierarchy of products.py.
`Product.buy` and `NonStockedProduct.buy` delegate to the promotion
when one is attached; without one, `Product.buy` subtracts directly
from `_quantity` (no validation, no deactivation), and
`NonStockedProduct.buy` only computes the price.  `LimitedProduct.buy`
first clamps the request to `maximum`, but when a promotion is attached
it passes `self._maximum` — not the clamped request — to it. -/
def buy (p : Product) (q : ℕ) : Except (String × Product) (ℚ × Product) :=
  match p.kind with
  | .limited M =>
      let q' := if q > M then M else q
      match p.promotion with
      | some pr => applyPromotions pr p M
      | none => .ok (p.price * q', { p with quantity := p.quantity - q' })
  | .nonStocked =>
      match p.promotion with
      | some pr => applyPromotions pr p q
      | none => .ok (p.price * q, p)
  | .standard =>
      match p.promotion with
      | some pr => applyPromotions pr p q
      | none => .ok (p.price * q, { p with quantity := p.quantity - q })

/-- A store state: the ordered list of owned products.  An order line
refers to a product by its position, mirroring the Python aliasing of
product objects shared between the store and the shopping list. -/
abbrev Store := List Product

/-- `Store.get_total_quantity` — line-identical in store.py and
app/store.py: `return len(self.products)`. -/
def getTotalQuantity (s : Store) : ℕ := s.length

/-- `Store.get_all_products`: the active products, in insertion order. -/
def getAllProducts (s : Store) : List Product := s.filter (·.active)

/-- The aggregate §3 of the spec describes for `totalStockCount()`,
written from the spec's words ("sum of quantity across active
products") for comparison with `getTotalQuantity`. -/
def specTotalStockCount (s : Store) : ℤ := ((s.filter (·.active)).map (·.quantity)).sum

/-- The quantity printed by the CLI's "Show total amount in store" menu
entry (`print_total_amount` in main.py): sum of quantity over
`get_all_products()`. -/
def cliTotalAmount (s : Store) : ℤ := ((getAllProducts s).map (·.quantity)).sum

/-- Outcome of `Store.order`: the formatted total, one of the two
returned error messages (identified by which template was formatted and
the offending product's name), or an uncaught exception escaping from
`buy`. -/
inductive OrderOutcome where
  | ok (total : ℚ)
  | errStock (name : String)
  | errInactive (name : String)
  | exn (msg : String)
  deriving DecidableEq, Repr

/-- The shared loop of `Store.order` in store.py and app/store.py; the
two implementations differ only in whether the stock check exempts
`NonStockedProduct` (`exempt`).  Each line is validated just before it
is bought, so earlier lines are already bought — and stay bought — when
a later line fails. -/
def orderAux (exempt : Bool) : Store → List (ℕ × ℕ) → ℚ → OrderOutcome × Store
  | s, [], total => (.ok total, s)
  | s, (i, q) :: rest, total =>
    match s.get? i with
    | none => (.exn "missing product", s)
    | some p =>
      if (q : ℤ) > p.quantity ∧ ¬(exempt ∧ p.kind = .nonStocked) then
        (.errStock p.name, s)
      else if p.active = false then
        (.errInactive p.name, s)
      else
        match buy p q with
        | .error (e, p') => (.exn e, s.set i p')
        | .ok (price, p') => orderAux exempt (s.set i p') rest (total + price)

/-- `Store.order` of the top-level store.py (no exemption for
non-stocked products in the stock check). -/
def Store.order (s : Store) (lines : List (ℕ × ℕ)) : OrderOutcome × Store :=
  orderAux false s lines 0

/-- `Store.order` of app/store.py (stock check skipped for
`NonStockedProduct`). -/
def Store.orderApp (s : Store) (lines : List (ℕ × ℕ)) : OrderOutcome × Store :=
  orderAux true s lines 0

/-- A price argument to the constructor: a number, or a value of some
other Python type (string, None, bool, list, dict, ...). -/
inductive PriceVal where
  | num (x : ℚ)
  | nonNum
  deriving DecidableEq, Repr

/-- A quantity argument to the constructor: an int, or a value of some
other Python type (bool included, since `type(q) is int` is false for
bools). -/
inductive QuantVal where
  | int (n : ℤ)
  | nonInt
  deriving DecidableEq, Repr

/-- The three construction-time error kinds: the ValueError from
`name_is_valid`, the TypeError/ValueError pair from `price_is_valid`,
and the Exception from `quantity_is_valid`. -/
inductive CtorErr where
  | invalidName
  | invalidPrice
  | invalidQuantity
  deriving DecidableEq, Repr

/-- `Product.__init__` together with the class attribute
`Product.total_quantity` it updates: the validators run in order (name,
price, quantity) and raise before any state is built; only on success
does the final statement add the quantity to the running total. -/
def mkProduct (total : ℤ) (name : String) (price : PriceVal) (qty : QuantVal) :
    (Except CtorErr Product) × ℤ :=
  if name = "" then (.error .invalidName, total)
  else
    match price with
    | .nonNum => (.error .invalidPrice, total)
    | .num x =>
      if x < 0 then (.error .invalidPrice, total)
      else
        match qty with
        | .nonInt => (.error .invalidQuantity, total)
        | .int n =>
          if n < 0 then (.error .invalidQuantity, total)
          else
            (.ok { name := name, kind := .standard, price := x, quantity := n,
                   active := if n = 0 then false else true, promotion := none },
             total + n)

/-- `LimitedProduct.__init__`: `super().__init__` runs the shared
`Product.__init__` body — the same validators in the same order, the
same active flag and the same running-total update — on an instance of
the capacity-limited class; the subclass then only stores `_maximum`
(carried here in the kind). -/
def mkLimitedProduct (total : ℤ) (name : String) (price : PriceVal) (qty : QuantVal)
    (maximum : ℕ) : (Except CtorErr Product) × ℤ :=
  if name = "" then (.error .invalidName, total)
  else
    match price with
    | .nonNum => (.error .invalidPrice, total)
    | .num x =>
      if x < 0 then (.error .invalidPrice, total)
      else
        match qty with
        | .nonInt => (.error .invalidQuantity, total)
        | .int n =>
          if n < 0 then (.error .invalidQuantity, total)
          else
            (.ok { name := name, kind := .limited maximum, price := x, quantity := n,
                   active := if n = 0 then false else true, promotion := none },
             total + n)

deriving instance DecidableEq for Except

/-! ### Promotion-loop lemmas -/

/-- Auxiliary: folding one deactivation check into the deactivation
check of the remaining iterations.  `m` abstracts the stock that the
remaining `k` iterations will deduct, `d` the stock the current one
deducts. -/
theorem activeFlagStep (k : ℕ) (d Q m : ℤ) (a : Bool) (hd : 0 < d)
    (hmk : k = 0 → m = 0) (hmk' : k ≠ 0 → 0 < m) (hQ : m + d ≤ Q) :
    (if k ≠ 0 ∧ Q - d = m then false else if Q - d = 0 then false else a)
      = if Q = m + d then false else a := by
  rcases Nat.eq_zero_or_pos k with hk | hk
  · subst hk
    have hm := hmk rfl
    split_ifs <;> first | rfl | (exfalso; omega)
  · have hne : k ≠ 0 := Nat.pos_iff_ne_zero.mp hk
    have hmpos := hmk' hne
    split_ifs <;> first | rfl | (exfalso; omega)

/-- Auxiliary: one iteration of the ThirdOneFree loop on a standard
product with at least `d` units of stock. -/
theorem tofStep_ok (nm : String) (pr : Option Promotion) (P : ℚ) (d n : ℕ)
    (t : ℚ) (Q : ℤ) (a : Bool) (hdQ : (d : ℤ) ≤ Q) :
    tofStep d n (t, { name := nm, kind := .standard, price := P, quantity := Q,
                      active := a, promotion := pr })
      = .ok ((if n % 3 = 0 then t else t + P),
             { name := nm, kind := .standard, price := P, quantity := Q - (d : ℤ),
               active := if Q - (d : ℤ) = 0 then false else a, promotion := pr }) := by
  have hneg : ¬ (Q - (d : ℤ) < 0) := by omega
  simp [tofStep, setQuantity, hneg]

/-- Auxiliary: the ThirdOneFree loop over an arbitrary index list `L`,
on a standard product holding at least `L.length * d` units: every
iteration succeeds, each index that is not a multiple of 3 adds the
unit price once, each iteration removes `d` units, and the product is
deactivated exactly when the final stock lands on zero (after at least
one iteration). -/
theorem tofLoop_ok (nm : String) (pr : Option Promotion) (P : ℚ) (d : ℕ) (hd : 0 < d)
    (L : List ℕ) :
    ∀ (t : ℚ) (Q : ℤ) (a : Bool), ((L.length * d : ℕ) : ℤ) ≤ Q →
      promoIter (tofStep d) L
          (t, { name := nm, kind := .standard, price := P, quantity := Q, active := a,
                promotion := pr })
        = .ok (t + P * (((L.filter fun n => !(n % 3 == 0)).length : ℕ) : ℚ),
               { name := nm, kind := .standard, price := P,
                 quantity := Q - ((L.length * d : ℕ) : ℤ),
                 active := if L.length ≠ 0 ∧ Q = ((L.length * d : ℕ) : ℤ) then false
                           else a,
                 promotion := pr }) := by
  induction L with
  | nil =>
    intro t Q a _
    simp [promoIter]
  | cons n ns ih =>
    intro t Q a hQ
    have h2 : (((ns.length + 1) * d : ℕ) : ℤ) ≤ Q := by
      rw [List.length_cons] at hQ; exact hQ
    have hdQ : (d : ℤ) ≤ Q := by
      have h1 : d ≤ (ns.length + 1) * d :=
        Nat.le_mul_of_pos_left d (Nat.succ_pos ns.length)
      have h1' : (d : ℤ) ≤ (((ns.length + 1) * d : ℕ) : ℤ) := by exact_mod_cast h1
      exact le_trans h1' h2
    have hrec : ((ns.length * d : ℕ) : ℤ) ≤ Q - (d : ℤ) := by
      push_cast at h2 ⊢
      linarith [h2]
    have hstep := tofStep_ok nm pr P d n t Q a hdQ
    simp only [promoIter, hstep]
    rw [ih (if n % 3 = 0 then t else t + P) (Q - (d : ℤ))
          (if Q - (d : ℤ) = 0 then false else a) hrec]
    have hcast : (((ns.length + 1) * d : ℕ) : ℤ) = ((ns.length * d : ℕ) : ℤ) + (d : ℤ) := by
      push_cast; ring
    simp only [List.length_cons, hcast, ne_eq, Nat.succ_ne_zero, not_false_iff, true_and,
      Except.ok.injEq, Prod.mk.injEq, Product.mk.injEq, and_true, true_and]
    refine ⟨?_, ?_, ?_⟩
    · rw [List.filter_cons]
      by_cases h3 : n % 3 = 0
      · simp [h3]
      · have hb : (!(n % 3 == 0)) = true := by simp [h3]
        rw [if_pos hb, if_neg h3, List.length_cons]
        push_cast
        ring
    · ring
    · exact activeFlagStep ns.length (d : ℤ) Q ((ns.length * d : ℕ) : ℤ) a
        (by exact_mod_cast hd)
        (fun h => by simp [h])
        (fun h => by
          have : 0 < ns.length * d := Nat.mul_pos (Nat.pos_of_ne_zero h) hd
          exact_mod_cast this)
        (hcast ▸ h2)

/-- Auxiliary: among the unit indices `1..q` exactly `q / 3` are
multiples of 3, so `q - q / 3` are not. -/
theorem count_not_mult3 (q : ℕ) :
    ((List.range' 1 q).filter fun n => !(n % 3 == 0)).length = q - q / 3 := by
  induction q with
  | zero => rfl
  | succ k ih =>
    rw [List.range'_concat, List.filter_append, List.length_append, ih]
    simp only [Nat.one_mul]
    by_cases h3 : (1 + k) % 3 = 0
    · have hb : (!((1 + k) % 3 == 0)) = false := by simp [h3]
      simp only [List.filter_cons, List.filter_nil, hb, Bool.false_eq_true, if_false,
        List.length_nil]
      omega
    · have hb : (!((1 + k) % 3 == 0)) = true := by simp [h3]
      simp only [List.filter_cons, List.filter_nil, hb, if_true, List.length_cons,
        List.length_nil]
      omega

/-- Auxiliary: one iteration of the SecondHalfPrice loop on a standard
product with at least one unit of stock. -/
theorem shpStep_ok (nm : String) (pr : Option Promotion) (P : ℚ) (n : ℕ)
    (t : ℚ) (Q : ℤ) (a : Bool) (hQ : (1 : ℤ) ≤ Q) :
    shpStep n (t, { name := nm, kind := .standard, price := P, quantity := Q,
                    active := a, promotion := pr })
      = .ok ((if n % 2 = 0 then t + P / 2 else t + P),
             { name := nm, kind := .standard, price := P, quantity := Q - 1,
               active := if Q - 1 = 0 then false else a, promotion := pr }) := by
  have hneg : ¬ (Q - 1 < 0) := by omega
  simp [shpStep, setQuantity, hneg]

/-- Auxiliary: the SecondHalfPrice loop over an arbitrary index list
`L`, on a standard product holding at least `L.length` units: every
iteration succeeds, each odd index adds the unit price and each even
index half of it, each iteration removes one unit, and the product is
deactivated exactly when the final stock lands on zero (after at least
one iteration). -/
theorem shpLoop_ok (nm : String) (pr : Option Promotion) (P : ℚ) (L : List ℕ) :
    ∀ (t : ℚ) (Q : ℤ) (a : Bool), ((L.length : ℕ) : ℤ) ≤ Q →
      promoIter shpStep L
          (t, { name := nm, kind := .standard, price := P, quantity := Q, active := a,
                promotion := pr })
        = .ok (t + P * (((L.filter fun n => !(n % 2 == 0)).length : ℕ) : ℚ)
                 + (P / 2) * (((L.filter fun n => (n % 2 == 0)).length : ℕ) : ℚ),
               { name := nm, kind := .standard, price := P,
                 quantity := Q - ((L.length : ℕ) : ℤ),
                 active := if L.length ≠ 0 ∧ Q = ((L.length : ℕ) : ℤ) then false
                           else a,
                 promotion := pr }) := by
  induction L with
  | nil =>
    intro t Q a _
    simp [promoIter]
  | cons n ns ih =>
    intro t Q a hQ
    have h2 : (((ns.length + 1) : ℕ) : ℤ) ≤ Q := by
      rw [List.length_cons] at hQ; exact_mod_cast hQ
    have hdQ : (1 : ℤ) ≤ Q := by omega
    have hrec : ((ns.length : ℕ) : ℤ) ≤ Q - 1 := by push_cast at h2 ⊢; omega
    have hstep := shpStep_ok nm pr P n t Q a hdQ
    simp only [promoIter, hstep]
    rw [ih (if n % 2 = 0 then t + P / 2 else t + P) (Q - 1)
          (if Q - 1 = 0 then false else a) hrec]
    have hcast : (((ns.length + 1) : ℕ) : ℤ) = ((ns.length : ℕ) : ℤ) + 1 := by push_cast; ring
    simp only [List.length_cons, hcast, ne_eq, Nat.succ_ne_zero, not_false_iff, true_and,
      Except.ok.injEq, Prod.mk.injEq, Product.mk.injEq, and_true, true_and]
    refine ⟨?_, ?_, ?_⟩
    · rw [List.filter_cons, List.filter_cons]
      by_cases h2' : n % 2 = 0
      · have hbe : ((n % 2 == 0) : Bool) = true := by simp [h2']
        rw [if_pos h2', if_neg (by simp [h2'] : ¬ ((!(n % 2 == 0)) = true)), if_pos hbe,
          List.length_cons]
        push_cast
        ring
      · have hbo : ((!(n % 2 == 0)) : Bool) = true := by simp [h2']
        rw [if_neg h2', if_pos hbo, if_neg (by simp [h2'] : ¬ (((n % 2 == 0)) = true)),
          List.length_cons]
        push_cast
        ring
    · ring
    · exact activeFlagStep ns.length 1 Q ((ns.length : ℕ) : ℤ) a one_pos
        (fun h => by simp [h])
        (fun h => by exact_mod_cast Nat.pos_of_ne_zero h)
        (hcast ▸ h2)

/-- Auxiliary: among the unit indices `1..q` exactly `q / 2` are even,
so `q - q / 2` are odd. -/
theorem count_odd_indices (q : ℕ) :
    ((List.range' 1 q).filter fun n => !(n % 2 == 0)).length = q - q / 2 := by
  induction q with
  | zero => rfl
  | succ k ih =>
    rw [List.range'_concat, List.filter_append, List.length_append, ih]
    simp only [Nat.one_mul]
    by_cases h2 : (1 + k) % 2 = 0
    · have hb : (!((1 + k) % 2 == 0)) = false := by simp [h2]
      simp only [List.filter_cons, List.filter_nil, hb, Bool.false_eq_true, if_false,
        List.length_nil]
      omega
    · have hb : (!((1 + k) % 2 == 0)) = true := by simp [h2]
      simp only [List.filter_cons, List.filter_nil, hb, if_true, List.length_cons,
        List.length_nil]
      omega

/-- Auxiliary: the even-index count among the unit indices `1..q`. -/
theorem count_even_indices (q : ℕ) :
    ((List.range' 1 q).filter fun n => (n % 2 == 0)).length = q / 2 := by
  induction q with
  | zero => rfl
  | succ k ih =>
    rw [List.range'_concat, List.filter_append, List.length_append, ih]
    simp only [Nat.one_mul]
    by_cases h2 : (1 + k) % 2 = 0
    · have hb : (((1 + k) % 2 == 0) : Bool) = true := by simp [h2]
      simp only [List.filter_cons, List.filter_nil, hb, if_true, List.length_cons,
        List.length_nil]
      omega
    · have hb : (((1 + k) % 2 == 0) : Bool) = false := by simp [h2]
      simp only [List.filter_cons, List.filter_nil, hb, Bool.false_eq_true, if_false,
        List.length_nil]
      omega

/-! ### C4 — the every-third-unit-free promotion -/

/-- C4 (amended to standard products): on a standard stock-tracked
product of price `P` with stock at least `q * q`, `buy(q)` under the
third-one-free promotion returns `P` times (`q` minus the number of
unit indices in `1..q` divisible by 3) and deducts `q * q` units of
stock (`q` units once per unit), deactivating the product exactly when
the stock lands on zero. -/
theorem c4_third_one_free (nm : String) (P : ℚ) (Q : ℤ) (a : Bool) (q : ℕ)
    (hq : 0 < q) (hQ : ((q * q : ℕ) : ℤ) ≤ Q) :
    buy { name := nm, kind := .standard, price := P, quantity := Q, active := a,
          promotion := some .thirdOneFree } q
      = .ok (P * ((q - q / 3 : ℕ) : ℚ),
             { name := nm, kind := .standard, price := P,
               quantity := Q - ((q * q : ℕ) : ℤ),
               active := if Q = ((q * q : ℕ) : ℤ) then false else a,
               promotion := some .thirdOneFree }) := by
  have hlen : (List.range' 1 q).length = q := by simp
  have h := tofLoop_ok nm (some .thirdOneFree) P q hq (List.range' 1 q) 0 Q a
    (by rw [hlen]; exact hQ)
  have hbuy : buy { name := nm, kind := .standard, price := P, quantity := Q,
                    active := a, promotion := some .thirdOneFree } q
      = promoIter (tofStep q) (List.range' 1 q)
          (0, { name := nm, kind := .standard, price := P, quantity := Q,
                active := a, promotion := some .thirdOneFree }) := rfl
  rw [hbuy, h, count_not_mult3, hlen]
  simp [Nat.pos_iff_ne_zero.mp hq]

/-- C4 witness: price 125, stock 100 — buy(1)=125, buy(2)=250,
buy(3)=250, buy(4)=375, with stock reduced by 1, 4, 9 and 16 units
respectively. -/
theorem c4_witness :
    buy { name := "Google Pixel 7", kind := .standard, price := 125, quantity := 100,
          active := true, promotion := some .thirdOneFree } 1
      = .ok (125, { name := "Google Pixel 7", kind := .standard, price := 125,
                    quantity := 99, active := true, promotion := some .thirdOneFree })
    ∧ buy { name := "Google Pixel 7", kind := .standard, price := 125, quantity := 100,
            active := true, promotion := some .thirdOneFree } 2
      = .ok (250, { name := "Google Pixel 7", kind := .standard, price := 125,
                    quantity := 96, active := true, promotion := some .thirdOneFree })
    ∧ buy { name := "Google Pixel 7", kind := .standard, price := 125, quantity := 100,
            active := true, promotion := some .thirdOneFree } 3
      = .ok (250, { name := "Google Pixel 7", kind := .standard, price := 125,
                    quantity := 91, active := true, promotion := some .thirdOneFree })
    ∧ buy { name := "Google Pixel 7", kind := .standard, price := 125, quantity := 100,
            active := true, promotion := some .thirdOneFree } 4
      = .ok (375, { name := "Google Pixel 7", kind := .standard, price := 125,
                    quantity := 84, active := true, promotion := some .thirdOneFree }) := by
  refine ⟨(c4_third_one_free "Google Pixel 7" 125 100 true 1 (by decide)
      (by decide)).trans (by norm_num),
    (c4_third_one_free "Google Pixel 7" 125 100 true 2 (by decide)
      (by decide)).trans (by norm_num),
    (c4_third_one_free "Google Pixel 7" 125 100 true 3 (by decide)
      (by decide)).trans (by norm_num),
    (c4_third_one_free "Google Pixel 7" 125 100 true 4 (by decide)
      (by decide)).trans (by norm_num)⟩

/-- C4 counterexample: the claim quantified over every stock-tracked
product fails on a capacity-limited one.  With maximum 2, price 125,
stock 100 and the third-one-free promotion, buy(1) returns 250 (the
price of two units) and deducts 4 units, not the claimed
`125 * (1 - 0) = 125` and `1 * 1 = 1` unit. -/
theorem c4_counterexample :
    buy { name := "Candy", kind := .limited 2, price := 125, quantity := 100,
          active := true, promotion := some .thirdOneFree } 1
      = .ok (250, { name := "Candy", kind := .limited 2, price := 125, quantity := 96,
                    active := true, promotion := some .thirdOneFree })
    ∧ (250 : ℚ) ≠ 125 * ((1 - 1 / 3 : ℕ) : ℚ)
    ∧ (96 : ℤ) ≠ 100 - ((1 * 1 : ℕ) : ℤ) := by
  refine ⟨?_, by norm_num, by norm_num⟩
  have hr : List.range' 1 2 = [1, 2] := rfl
  simp [buy, applyPromotions, hr, promoIter, tofStep, setQuantity]
  norm_num

/-! ### C8 — the second-unit-half-price promotion -/

/-- C8 (amended to standard products): on a standard stock-tracked
product of price `P` with stock at least `q`, `buy(q)` under the
second-half-price promotion returns full price for each odd unit index
and half price for each even one — `P * (q - q/2) + (P/2) * (q/2)` —
and deducts exactly `q` units, deactivating the product exactly when
the stock lands on zero. -/
theorem c8_second_half_price (nm : String) (P : ℚ) (Q : ℤ) (a : Bool) (q : ℕ)
    (hq : 0 < q) (hQ : (q : ℤ) ≤ Q) :
    buy { name := nm, kind := .standard, price := P, quantity := Q, active := a,
          promotion := some .secondHalfPrice } q
      = .ok (P * ((q - q / 2 : ℕ) : ℚ) + (P / 2) * ((q / 2 : ℕ) : ℚ),
             { name := nm, kind := .standard, price := P,
               quantity := Q - (q : ℤ),
               active := if Q = (q : ℤ) then false else a,
               promotion := some .secondHalfPrice }) := by
  have hlen : (List.range' 1 q).length = q := by simp
  have h := shpLoop_ok nm (some .secondHalfPrice) P (List.range' 1 q) 0 Q a
    (by rw [hlen]; exact_mod_cast hQ)
  have hbuy : buy { name := nm, kind := .standard, price := P, quantity := Q,
                    active := a, promotion := some .secondHalfPrice } q
      = promoIter shpStep (List.range' 1 q)
          (0, { name := nm, kind := .standard, price := P, quantity := Q,
                active := a, promotion := some .secondHalfPrice }) := rfl
  rw [hbuy, h, count_odd_indices, count_even_indices, hlen]
  simp [Nat.pos_iff_ne_zero.mp hq]

/-- C8 witness: price 500, stock 250 — buy(1)=500 leaving 249,
buy(2)=750 leaving 248, buy(3)=1250 leaving 247. -/
theorem c8_witness :
    buy { name := "Google Pixel 7", kind := .standard, price := 500, quantity := 250,
          active := true, promotion := some .secondHalfPrice } 1
      = .ok (500, { name := "Google Pixel 7", kind := .standard, price := 500,
                    quantity := 249, active := true, promotion := some .secondHalfPrice })
    ∧ buy { name := "Google Pixel 7", kind := .standard, price := 500, quantity := 250,
            active := true, promotion := some .secondHalfPrice } 2
      = .ok (750, { name := "Google Pixel 7", kind := .standard, price := 500,
                    quantity := 248, active := true, promotion := some .secondHalfPrice })
    ∧ buy { name := "Google Pixel 7", kind := .standard, price := 500, quantity := 250,
            active := true, promotion := some .secondHalfPrice } 3
      = .ok (1250, { name := "Google Pixel 7", kind := .standard, price := 500,
                     quantity := 247, active := true, promotion := some .secondHalfPrice }) := by
  refine ⟨(c8_second_half_price "Google Pixel 7" 500 250 true 1 (by decide)
      (by decide)).trans (by norm_num),
    (c8_second_half_price "Google Pixel 7" 500 250 true 2 (by decide)
      (by decide)).trans (by norm_num),
    (c8_second_half_price "Google Pixel 7" 500 250 true 3 (by decide)
      (by decide)).trans (by norm_num)⟩

/-- C8 counterexample: the claim quantified over every stock-tracked
product fails on a capacity-limited one.  With maximum 2, price 500,
stock 100 and the second-half-price promotion, buy(1) returns 750 (the
two-unit promotion price) and deducts 2 units, not the claimed 500 and
one unit. -/
theorem c8_counterexample :
    buy { name := "Candy", kind := .limited 2, price := 500, quantity := 100,
          active := true, promotion := some .secondHalfPrice } 1
      = .ok (750, { name := "Candy", kind := .limited 2, price := 500, quantity := 98,
                    active := true, promotion := some .secondHalfPrice })
    ∧ (750 : ℚ) ≠ 500
    ∧ (98 : ℤ) ≠ 100 - 1 := by
  refine ⟨?_, by norm_num, by norm_num⟩
  have hr : List.range' 1 2 = [1, 2] := rfl
  simp [buy, applyPromotions, hr, promoIter, shpStep, setQuantity]
  norm_num

/-! ### C3 — Store.get_total_quantity -/

/-- C3 (amended): `get_total_quantity` returns the number of products in
the store's collection — each product contributes exactly 1, regardless
of its quantity or active flag — not the sum of quantities over active
products. -/
theorem c3_total_quantity_counts_products :
    getTotalQuantity ([] : Store) = 0
    ∧ ∀ (s : Store) (p : Product), getTotalQuantity (p :: s) = getTotalQuantity s + 1 :=
  ⟨rfl, fun _ _ => rfl⟩

/-- C3 counterexample: on a store holding one active product of quantity
100, `get_total_quantity` returns 1, not the active-quantity sum 100. -/
theorem c3_counterexample :
    getTotalQuantity [{ name := "MacBook Air M2", kind := .standard, price := 1450,
                        quantity := 100, active := true, promotion := none }] = 1
    ∧ specTotalStockCount [{ name := "MacBook Air M2", kind := .standard, price := 1450,
                             quantity := 100, active := true, promotion := none }] = 100
    ∧ (1 : ℤ) ≠ 100 :=
  ⟨rfl, rfl, by decide⟩

/-! ### C5 — Product.buy with no promotion, overdraw -/

/-- C5: evaluation at the failing input.  On a no-promotion standard
product of price 10 and quantity 10, `buy(11)` does not raise: it
returns 110 and stores quantity −1 (the direct `self._quantity -=`
bypasses the validating setter), contradicting the claim and the repo's
own test `test_exceed_quantity`. -/
theorem c5_overbuy_completes_without_error :
    buy { name := "MacBook Air M2", kind := .standard, price := 10, quantity := 10,
          active := true, promotion := none } 11
      = .ok (110, { name := "MacBook Air M2", kind := .standard, price := 10,
                    quantity := -1, active := true, promotion := none }) := by
  simp only [buy]
  norm_num

/-! ### C7 — LimitedProduct.buy without promotion -/

/-- C7: a capacity-limited product with no promotion, per-order maximum
`M`, unit price `P` and sufficient stock: `buy(q)` deducts
`min q M` units and returns `P * min q M`. -/
theorem c7_limited_buy_no_promotion (nm : String) (M : ℕ) (P : ℚ) (Q : ℤ) (a : Bool)
    (q : ℕ) (hq : 0 < q) (hQ : ((min q M : ℕ) : ℤ) ≤ Q) :
    buy { name := nm, kind := .limited M, price := P, quantity := Q, active := a,
          promotion := none } q
      = .ok (P * ((min q M : ℕ) : ℚ),
             { name := nm, kind := .limited M, price := P,
               quantity := Q - ((min q M : ℕ) : ℤ), active := a, promotion := none }) := by
  have hmin : (if q > M then M else q) = min q M := by
    split <;> omega
  simp only [buy, hmin]

/-- C7 witness: maximum 1, price 10, stock 250 — buy(1) returns 10
leaving 249; buy(2) is clamped to one unit, returns 10, leaving 248. -/
theorem c7_witness :
    buy { name := "Shipping", kind := .limited 1, price := 10, quantity := 250,
          active := true, promotion := none } 1
      = .ok (10, { name := "Shipping", kind := .limited 1, price := 10, quantity := 249,
                   active := true, promotion := none })
    ∧ buy { name := "Shipping", kind := .limited 1, price := 10, quantity := 249,
            active := true, promotion := none } 2
      = .ok (10, { name := "Shipping", kind := .limited 1, price := 10, quantity := 248,
                   active := true, promotion := none }) := by
  constructor
  · have h := c7_limited_buy_no_promotion "Shipping" 1 10 250 true 1 (by decide) (by decide)
    simpa using h
  · have h := c7_limited_buy_no_promotion "Shipping" 1 10 249 true 2 (by decide) (by decide)
    simpa using h

/-! ### C10 — LimitedProduct.buy with a promotion -/

/-- C10: a capacity-limited product with an attached promotion invokes
the promotion with `maximum` units regardless of the requested
quantity: `buy(q)` equals applying the promotion to `M` units, and its
result does not depend on `q` at all. -/
theorem c10_limited_promotion_uses_maximum (nm : String) (M : ℕ) (P : ℚ) (Q : ℤ)
    (a : Bool) (pr : Promotion) (q q' : ℕ) (hq : 0 < q) (hq' : 0 < q') :
    buy { name := nm, kind := .limited M, price := P, quantity := Q, active := a,
          promotion := some pr } q
      = applyPromotions pr
          { name := nm, kind := .limited M, price := P, quantity := Q, active := a,
            promotion := some pr } M
    ∧ buy { name := nm, kind := .limited M, price := P, quantity := Q, active := a,
            promotion := some pr } q
      = buy { name := nm, kind := .limited M, price := P, quantity := Q, active := a,
              promotion := some pr } q' :=
  ⟨rfl, rfl⟩

/-- C10 witness: maximum 3 with the third-one-free promotion, price 125,
stock 100 — buy(1) already prices and deducts 3 units (and equals
buy(2)). -/
theorem c10_witness :
    buy { name := "Shipping", kind := .limited 3, price := 125, quantity := 100,
          active := true, promotion := some .thirdOneFree } 1
      = applyPromotions .thirdOneFree
          { name := "Shipping", kind := .limited 3, price := 125, quantity := 100,
            active := true, promotion := some .thirdOneFree } 3
    ∧ buy { name := "Shipping", kind := .limited 3, price := 125, quantity := 100,
            active := true, promotion := some .thirdOneFree } 1
      = buy { name := "Shipping", kind := .limited 3, price := 125, quantity := 100,
              active := true, promotion := some .thirdOneFree } 2 :=
  c10_limited_promotion_uses_maximum "Shipping" 3 125 100 true .thirdOneFree 1 2
    (by decide) (by decide)

/-! ### C9 — construction-time validation -/

/-- C9: constructing with an empty name, a non-numeric price, a negative
price, a non-integral quantity or a negative quantity fails with the
corresponding error kind, and in every such case the process-wide
running total is returned unchanged. -/
theorem c9_construction_validation (total : ℤ) (name : String) (price : PriceVal)
    (qty : QuantVal) :
    (name = "" → mkProduct total name price qty = (.error .invalidName, total))
    ∧ (name ≠ "" → price = .nonNum →
        mkProduct total name price qty = (.error .invalidPrice, total))
    ∧ (∀ x : ℚ, name ≠ "" → price = .num x → x < 0 →
        mkProduct total name price qty = (.error .invalidPrice, total))
    ∧ (∀ x : ℚ, name ≠ "" → price = .num x → 0 ≤ x → qty = .nonInt →
        mkProduct total name price qty = (.error .invalidQuantity, total))
    ∧ (∀ (x : ℚ) (n : ℤ), name ≠ "" → price = .num x → 0 ≤ x → qty = .int n → n < 0 →
        mkProduct total name price qty = (.error .invalidQuantity, total)) := by
  refine ⟨fun h => by simp [mkProduct, h], fun h hp => by simp [mkProduct, h, hp],
    fun x h hp hx => ?_, fun x h hp hx hq => ?_, fun x n h hp hx hq hn => ?_⟩
  · subst hp; simp [mkProduct, h, hx]
  · subst hp; subst hq; simp [mkProduct, h, not_lt.mpr hx]
  · subst hp; subst hq; simp [mkProduct, h, not_lt.mpr hx, hn]

/-- C9 witness: each invalid-input class at a concrete input, with the
running total 7 unchanged. -/
theorem c9_witness :
    mkProduct 7 "" (.num 10) (.int 5) = (.error .invalidName, 7)
    ∧ mkProduct 7 "A" .nonNum (.int 5) = (.error .invalidPrice, 7)
    ∧ mkProduct 7 "A" (.num (-3)) (.int 5) = (.error .invalidPrice, 7)
    ∧ mkProduct 7 "A" (.num 10) .nonInt = (.error .invalidQuantity, 7)
    ∧ mkProduct 7 "A" (.num 10) (.int (-2)) = (.error .invalidQuantity, 7) :=
  ⟨(c9_construction_validation 7 "" (.num 10) (.int 5)).1 rfl,
   (c9_construction_validation 7 "A" .nonNum (.int 5)).2.1 (by decide) rfl,
   (c9_construction_validation 7 "A" (.num (-3)) (.int 5)).2.2.1 (-3) (by decide) rfl
     (by norm_num),
   (c9_construction_validation 7 "A" (.num 10) .nonInt).2.2.2.1 10 (by decide) rfl
     (by norm_num) rfl,
   (c9_construction_validation 7 "A" (.num 10) (.int (-2))).2.2.2.2 10 (-2) (by decide) rfl
     (by norm_num) rfl (by decide)⟩

/-! ### C1 — no partial mutation on order failure -/

/-- C1 (amended): when the FIRST line of the shopping list fails
validation (requested quantity exceeds stock without the exemption
applying, or the product is inactive), `order` returns the matching
error and every product quantity in the store is unchanged.  A failure
at a later line does not roll back the lines already bought (see the
counterexample). -/
theorem c1_first_line_failure_no_mutation (exempt : Bool) (s : Store) (i q : ℕ)
    (rest : List (ℕ × ℕ)) (t : ℚ) (p : Product) (hp : s.get? i = some p)
    (hfail : ((q : ℤ) > p.quantity ∧ ¬(exempt ∧ p.kind = .nonStocked))
             ∨ p.active = false) :
    (orderAux exempt s ((i, q) :: rest) t).2 = s
    ∧ ((orderAux exempt s ((i, q) :: rest) t).1 = .errStock p.name
       ∨ (orderAux exempt s ((i, q) :: rest) t).1 = .errInactive p.name) := by
  by_cases hc : (q : ℤ) > p.quantity ∧ ¬(exempt ∧ p.kind = .nonStocked)
  · simp only [orderAux, hp]
    rw [if_pos hc]
    exact ⟨rfl, .inl rfl⟩
  · have ha : p.active = false := by tauto
    simp only [orderAux, hp]
    rw [if_neg hc, if_pos ha]
    exact ⟨rfl, .inr rfl⟩

/-- C1 witness: a single-line order exceeding the stock of a standard
product errors and leaves the store unchanged. -/
theorem c1_witness :
    (orderAux false
        [{ name := "MacBook Air M2", kind := .standard, price := 1450, quantity := 10,
           active := true, promotion := none }] [(0, 11)] 0).2
      = [{ name := "MacBook Air M2", kind := .standard, price := 1450, quantity := 10,
           active := true, promotion := none }]
    ∧ ((orderAux false
          [{ name := "MacBook Air M2", kind := .standard, price := 1450, quantity := 10,
             active := true, promotion := none }] [(0, 11)] 0).1
          = .errStock "MacBook Air M2"
       ∨ (orderAux false
            [{ name := "MacBook Air M2", kind := .standard, price := 1450, quantity := 10,
               active := true, promotion := none }] [(0, 11)] 0).1
          = .errInactive "MacBook Air M2") :=
  c1_first_line_failure_no_mutation false
    [{ name := "MacBook Air M2", kind := .standard, price := 1450, quantity := 10,
       active := true, promotion := none }] 0 11 [] 0
    { name := "MacBook Air M2", kind := .standard, price := 1450, quantity := 10,
      active := true, promotion := none } rfl
    (.inl ⟨by decide, by decide⟩)

/-- C1 counterexample: with two products A (stock 10) and B (stock 5)
and the shopping list [(A, 1), (B, 6)], the order fails at the second
line but A has already been bought: its quantity is mutated to 9. -/
theorem c1_counterexample :
    Store.order
        [{ name := "A", kind := .standard, price := 10, quantity := 10, active := true,
           promotion := none },
         { name := "B", kind := .standard, price := 5, quantity := 5, active := true,
           promotion := none }]
        [(0, 1), (1, 6)]
      = (.errStock "B",
         [{ name := "A", kind := .standard, price := 10, quantity := 9, active := true,
            promotion := none },
          { name := "B", kind := .standard, price := 5, quantity := 5, active := true,
            promotion := none }])
    ∧ (9 : ℤ) ≠ 10 := by
  constructor
  · decide
  · decide

/-! ### C2 — the quantity/active invariant -/

/-- C2 (amended): for every stock-tracked product — standard or
capacity-limited — the invariant (quantity never negative, active false
iff quantity zero) holds after a successful construction, and the
quantity setter keeps quantities non-negative (rejecting negative
values) and deactivates at zero; but `buy` without a promotion bypasses
the setter entirely: buying the full stock (within the per-order
maximum, for the capacity-limited kind) leaves the product ACTIVE at
quantity 0, so the invariant is not preserved by `buy`. -/
theorem c2_invariant_status :
    (∀ (total : ℤ) (nm : String) (x : ℚ) (n : ℤ) (p : Product) (t : ℤ),
       mkProduct total nm (.num x) (.int n) = (.ok p, t) →
       0 ≤ p.quantity ∧ (p.active = false ↔ p.quantity = 0))
    ∧ (∀ (total : ℤ) (nm : String) (x : ℚ) (n : ℤ) (M : ℕ) (p : Product) (t : ℤ),
       mkLimitedProduct total nm (.num x) (.int n) M = (.ok p, t) →
       0 ≤ p.quantity ∧ (p.active = false ↔ p.quantity = 0))
    ∧ (∀ (nm : String) (k : ProdKind) (P : ℚ) (Qv v : ℤ) (a : Bool)
         (pr : Option Promotion) (p' : Product), k ≠ .nonStocked →
        setQuantity { name := nm, kind := k, price := P, quantity := Qv,
                      active := a, promotion := pr } v = .ok p' →
        0 ≤ p'.quantity ∧ (p'.quantity = 0 → p'.active = false))
    ∧ (∀ (nm : String) (k : ProdKind) (P : ℚ) (Qv v : ℤ) (a : Bool)
         (pr : Option Promotion), k ≠ .nonStocked → v < 0 →
        setQuantity { name := nm, kind := k, price := P, quantity := Qv,
                      active := a, promotion := pr } v
          = .error "Quantity must be a positive integer")
    ∧ (∀ (nm : String) (P : ℚ) (Q : ℕ), 0 < Q →
        buy { name := nm, kind := .standard, price := P, quantity := (Q : ℤ),
              active := true, promotion := none } Q
          = .ok (P * (Q : ℚ), { name := nm, kind := .standard, price := P, quantity := 0,
                                active := true, promotion := none }))
    ∧ (∀ (nm : String) (P : ℚ) (Q M : ℕ), 0 < Q → Q ≤ M →
        buy { name := nm, kind := .limited M, price := P, quantity := (Q : ℤ),
              active := true, promotion := none } Q
          = .ok (P * (Q : ℚ), { name := nm, kind := .limited M, price := P, quantity := 0,
                                active := true, promotion := none })) := by
  refine ⟨?_, ?_, ?_, ?_, ?_, ?_⟩
  · intro total nm x n p t hmk
    by_cases hn : nm = ""
    · simp [mkProduct, hn] at hmk
    · by_cases hx : x < 0
      · simp [mkProduct, hn, hx] at hmk
      · by_cases hq : n < 0
        · simp [mkProduct, hn, hx, hq] at hmk
        · simp only [mkProduct, hn, hx, hq, if_neg, if_false, Prod.mk.injEq,
            Except.ok.injEq, if_true, reduceIte] at hmk
          obtain ⟨hp, _⟩ := hmk
          subst hp
          refine ⟨by simpa using (by omega : (0:ℤ) ≤ n), ?_⟩
          by_cases h0 : n = 0 <;> simp [h0]
  · intro total nm x n M p t hmk
    by_cases hn : nm = ""
    · simp [mkLimitedProduct, hn] at hmk
    · by_cases hx : x < 0
      · simp [mkLimitedProduct, hn, hx] at hmk
      · by_cases hq : n < 0
        · simp [mkLimitedProduct, hn, hx, hq] at hmk
        · simp only [mkLimitedProduct, hn, hx, hq, if_neg, if_false, Prod.mk.injEq,
            Except.ok.injEq, if_true, reduceIte] at hmk
          obtain ⟨hp, _⟩ := hmk
          subst hp
          refine ⟨by simpa using (by omega : (0:ℤ) ≤ n), ?_⟩
          by_cases h0 : n = 0 <;> simp [h0]
  · intro nm k P Qv v a pr p' hk hset
    cases k with
    | nonStocked => exact absurd rfl hk
    | standard =>
      by_cases hv : v < 0
      · simp [setQuantity, hv] at hset
      · simp only [setQuantity, hv, if_neg, if_false, Except.ok.injEq, reduceIte] at hset
        subst hset
        refine ⟨by simpa using (by omega : (0:ℤ) ≤ v), ?_⟩
        intro h0
        simp only at h0
        simp [h0]
    | limited M =>
      by_cases hv : v < 0
      · simp [setQuantity, hv] at hset
      · simp only [setQuantity, hv, if_neg, if_false, Except.ok.injEq, reduceIte] at hset
        subst hset
        refine ⟨by simpa using (by omega : (0:ℤ) ≤ v), ?_⟩
        intro h0
        simp only at h0
        simp [h0]
  · intro nm k P Qv v a pr hk hv
    cases k with
    | nonStocked => exact absurd rfl hk
    | standard => simp [setQuantity, hv]
    | limited M => simp [setQuantity, hv]
  · intro nm P Q _
    simp [buy]
  · intro nm P Q M _ hQM
    have hgt : ¬ (Q > M) := by omega
    simp [buy, hgt]

/-- C2 witness: each conjunct at a concrete input — construction of a
standard and of a capacity-limited product, the setter on a
capacity-limited product (deactivating at 0, rejecting −1), and buying
the full stock of 5 units of each stock-tracked kind, which leaves
quantity 0 with active still true. -/
theorem c2_witness :
    (0 ≤ ({ name := "A", kind := .standard, price := 5, quantity := 3,
            active := true, promotion := none } : Product).quantity
     ∧ (({ name := "A", kind := .standard, price := 5, quantity := 3,
           active := true, promotion := none } : Product).active = false
         ↔ ({ name := "A", kind := .standard, price := 5, quantity := 3,
              active := true, promotion := none } : Product).quantity = 0))
    ∧ (0 ≤ ({ name := "Shipping", kind := .limited 4, price := 5, quantity := 3,
              active := true, promotion := none } : Product).quantity
       ∧ (({ name := "Shipping", kind := .limited 4, price := 5, quantity := 3,
             active := true, promotion := none } : Product).active = false
           ↔ ({ name := "Shipping", kind := .limited 4, price := 5, quantity := 3,
                active := true, promotion := none } : Product).quantity = 0))
    ∧ (0 ≤ ({ name := "Shipping", kind := .limited 4, price := 5, quantity := 0,
              active := false, promotion := none } : Product).quantity
       ∧ (({ name := "Shipping", kind := .limited 4, price := 5, quantity := 0,
             active := false, promotion := none } : Product).quantity = 0 →
           ({ name := "Shipping", kind := .limited 4, price := 5, quantity := 0,
              active := false, promotion := none } : Product).active = false))
    ∧ setQuantity { name := "Shipping", kind := .limited 4, price := 5, quantity := 3,
                    active := true, promotion := none } (-1)
        = .error "Quantity must be a positive integer"
    ∧ buy { name := "A", kind := .standard, price := 10, quantity := (5 : ℤ),
            active := true, promotion := none } 5
        = .ok (50, { name := "A", kind := .standard, price := 10, quantity := 0,
                     active := true, promotion := none })
    ∧ buy { name := "Shipping", kind := .limited 7, price := 10, quantity := (5 : ℤ),
            active := true, promotion := none } 5
        = .ok (50, { name := "Shipping", kind := .limited 7, price := 10, quantity := 0,
                     active := true, promotion := none }) := by
  refine ⟨c2_invariant_status.1 0 "A" 5 3 _ 3 (by decide), ?_, ?_, ?_, ?_, ?_⟩
  · exact c2_invariant_status.2.1 0 "Shipping" 5 3 4 _ 3 (by decide)
  · exact c2_invariant_status.2.2.1 "Shipping" (.limited 4) 5 3 0 true none _
      (by decide) (by decide)
  · exact c2_invariant_status.2.2.2.1 "Shipping" (.limited 4) 5 3 (-1) true none
      (by decide) (by decide)
  · have h := c2_invariant_status.2.2.2.2.1 "A" 10 5 (by decide)
    exact h.trans (by norm_num)
  · have h := c2_invariant_status.2.2.2.2.2 "Shipping" 10 5 7 (by decide) (by decide)
    exact h.trans (by norm_num)

/-- C2 counterexample: buying the full stock (5 of 5) through the
promotionless `buy` leaves the product with quantity 0 and active still
true, so "active is false iff quantity is zero" fails on the resulting
state. -/
theorem c2_counterexample :
    buy { name := "MacBook Air M2", kind := .standard, price := 10, quantity := 5,
          active := true, promotion := none } 5
      = .ok (50, { name := "MacBook Air M2", kind := .standard, price := 10,
                   quantity := 0, active := true, promotion := none })
    ∧ ¬ (({ name := "MacBook Air M2", kind := .standard, price := 10, quantity := 0,
            active := true, promotion := none } : Product).active = false
          ↔ ({ name := "MacBook Air M2", kind := .standard, price := 10, quantity := 0,
               active := true, promotion := none } : Product).quantity = 0) := by
  constructor
  · simp only [buy]
    norm_num
  · decide

/-! ### C6 — the non-stocked exemption in Store.order -/

/-- Auxiliary: a SecondHalfPrice iteration never mutates a non-stocked
product. -/
theorem shpStep_nonStocked (n : ℕ) (t : ℚ) (p : Product) (h : p.kind = .nonStocked) :
    shpStep n (t, p) = .ok ((if n % 2 = 0 then t + p.price / 2 else t + p.price), p) := by
  simp [shpStep, h]

/-- Auxiliary: a ThirdOneFree iteration never mutates a non-stocked
product. -/
theorem tofStep_nonStocked (d n : ℕ) (t : ℚ) (p : Product) (h : p.kind = .nonStocked) :
    tofStep d n (t, p) = .ok ((if n % 3 = 0 then t else t + p.price), p) := by
  simp [tofStep, h]

/-- Auxiliary: a promotion loop whose step never mutates the product
returns it unchanged and never raises. -/
theorem promoIter_preserves
    (step : ℕ → (ℚ × Product) → Except (String × Product) (ℚ × Product))
    (p : Product) (hstep : ∀ n t, ∃ t', step n (t, p) = .ok (t', p)) :
    ∀ (L : List ℕ) (t : ℚ), ∃ t', promoIter step L (t, p) = .ok (t', p) := by
  intro L
  induction L with
  | nil => intro t; exact ⟨t, rfl⟩
  | cons n ns ih =>
    intro t
    obtain ⟨t1, h1⟩ := hstep n t
    obtain ⟨t2, h2⟩ := ih t1
    exact ⟨t2, by simp [promoIter, h1, h2]⟩

/-- Auxiliary: `buy` on a non-stocked product always succeeds and never
changes the product's state, with or without a promotion. -/
theorem buy_nonStocked (p : Product) (q : ℕ) (h : p.kind = .nonStocked) :
    ∃ c, buy p q = .ok (c, p) := by
  obtain ⟨nm, k, P, Q, a, pr⟩ := p
  replace h : k = ProdKind.nonStocked := h
  subst h
  cases pr with
  | none => exact ⟨P * q, rfl⟩
  | some pr =>
    cases pr with
    | percentDiscount pct => exact ⟨P * (1 - pct / 100) * q, by simp [buy, applyPromotions]⟩
    | secondHalfPrice =>
      obtain ⟨t', ht⟩ := promoIter_preserves shpStep
        { name := nm, kind := .nonStocked, price := P, quantity := Q, active := a,
          promotion := some .secondHalfPrice }
        (fun n t => ⟨_, shpStep_nonStocked n t _ rfl⟩) (List.range' 1 q) 0
      exact ⟨t', by simpa [buy, applyPromotions] using ht⟩
    | thirdOneFree =>
      obtain ⟨t', ht⟩ := promoIter_preserves (tofStep q)
        { name := nm, kind := .nonStocked, price := P, quantity := Q, active := a,
          promotion := some .thirdOneFree }
        (fun n t => ⟨_, tofStep_nonStocked q n t _ rfl⟩) (List.range' 1 q) 0
      exact ⟨t', by simpa [buy, applyPromotions] using ht⟩

/-- C6 (amended): in the app/store.py implementation, a line whose
product is an active non-stocked product always passes validation and
is bought, for any requested quantity (and the buy leaves the product
unchanged); moreover a stock-exceeded error is only ever reported for a
stock-tracked product.  The top-level store.py implementation has no
such exemption (see the counterexample). -/
theorem c6_nonstocked_exemption_app :
    (∀ (s : Store) (i q : ℕ) (rest : List (ℕ × ℕ)) (t : ℚ) (p : Product),
       s.get? i = some p → p.kind = .nonStocked → p.active = true →
       ∃ c : ℚ, buy p q = .ok (c, p)
         ∧ orderAux true s ((i, q) :: rest) t = orderAux true (s.set i p) rest (t + c))
    ∧ (∀ (s : Store) (lines : List (ℕ × ℕ)) (t : ℚ) (nm : String),
       (orderAux true s lines t).1 = .errStock nm →
       ∃ p ∈ (orderAux true s lines t).2, p.name = nm ∧ p.kind ≠ .nonStocked) := by
  constructor
  · intro s i q rest t p hp hk ha
    obtain ⟨c, hb⟩ := buy_nonStocked p q hk
    refine ⟨c, hb, ?_⟩
    simp only [orderAux, hp]
    rw [if_neg (by simp [hk]), if_neg (by simp [ha]), hb]
  · intro s lines
    induction lines generalizing s with
    | nil =>
      intro t nm h
      simp [orderAux] at h
    | cons hd rest ih =>
      intro t nm h
      obtain ⟨i, q⟩ := hd
      cases hg : s.get? i with
      | none =>
        simp only [orderAux, hg] at h
        simp at h
      | some p =>
        simp only [orderAux, hg] at h ⊢
        by_cases h1 : (q : ℤ) > p.quantity ∧ ¬(True ∧ p.kind = .nonStocked)
        · rw [if_pos h1] at h ⊢
          have hnm : p.name = nm := by simpa using h
          exact ⟨p, List.get?_mem hg, hnm, fun hk => h1.2 ⟨trivial, hk⟩⟩
        · rw [if_neg h1] at h ⊢
          by_cases h2 : p.active = false
          · rw [if_pos h2] at h
            simp at h
          · rw [if_neg h2] at h ⊢
            cases hb : buy p q with
            | error ep =>
              obtain ⟨e, p'⟩ := ep
              rw [hb] at h
              simp at h
            | ok cp =>
              obtain ⟨c, p'⟩ := cp
              rw [hb] at h
              exact ih (s.set i p') (t + c) nm h

/-- C6 witness: part one at a concrete active non-stocked product and
requested quantity 5; part two at a concrete store whose stock-exceeded
failure names the standard product A. -/
theorem c6_witness :
    (∃ c : ℚ,
       buy { name := "Windows License", kind := .nonStocked, price := 125, quantity := 0,
             active := true, promotion := none } 5
         = .ok (c, { name := "Windows License", kind := .nonStocked, price := 125,
                     quantity := 0, active := true, promotion := none })
       ∧ orderAux true
           [{ name := "Windows License", kind := .nonStocked, price := 125, quantity := 0,
              active := true, promotion := none }] [(0, 5)] 0
         = orderAux true
             ([{ name := "Windows License", kind := .nonStocked, price := 125, quantity := 0,
                 active := true, promotion := none }].set 0
               { name := "Windows License", kind := .nonStocked, price := 125, quantity := 0,
                 active := true, promotion := none }) [] (0 + c))
    ∧ ∃ p ∈ (orderAux true
          [{ name := "A", kind := .standard, price := 10, quantity := 2,
             active := true, promotion := none }] [(0, 5)] 0).2,
        p.name = "A" ∧ p.kind ≠ .nonStocked :=
  ⟨c6_nonstocked_exemption_app.1
      [{ name := "Windows License", kind := .nonStocked, price := 125, quantity := 0,
         active := true, promotion := none }] 0 5 [] 0
      { name := "Windows License", kind := .nonStocked, price := 125, quantity := 0,
        active := true, promotion := none } rfl rfl rfl,
   c6_nonstocked_exemption_app.2
      [{ name := "A", kind := .standard, price := 10, quantity := 2,
         active := true, promotion := none }] [(0, 5)] 0 "A" (by decide)⟩

/-- C6 counterexample: the top-level store.py `order` has no exemption:
an active non-stocked product (stored quantity 0) fails the stock check
for quantity 1, while the app/store.py `order` accepts the same line. -/
theorem c6_counterexample :
    Store.order
        [{ name := "Windows License", kind := .nonStocked, price := 125, quantity := 0,
           active := true, promotion := none }] [(0, 1)]
      = (.errStock "Windows License",
         [{ name := "Windows License", kind := .nonStocked, price := 125, quantity := 0,
            active := true, promotion := none }])
    ∧ Store.orderApp
        [{ name := "Windows License", kind := .nonStocked, price := 125, quantity := 0,
           active := true, promotion := none }] [(0, 1)]
      = (.ok 125,
         [{ name := "Windows License", kind := .nonStocked, price := 125, quantity := 0,
            active := true, promotion := none }]) := by
  constructor
  · decide
  · simp [Store.orderApp, orderAux, buy]

end BestBuy
